import Mathlib

/-!
Verification of the tsludo-react Ludo core: the board model
(`data.helpers.tsx`), the turn state machine (`gameState.helpers`), and the
animation scheduler (`ludoRenderer.tsx`, `diceRenderer.tsx`,
`graphics.helpers`).  TypeScript values are embedded shallowly: JS numbers
holding integers become `Int`/`Nat`, wall-clock milliseconds become `ℚ`,
the random uuid v4 generator becomes an explicit family `uuid : Nat → Nat → String`
of its draws (one independent draw per coin-creating grid coordinate), and `Math.random` draws become explicit parameters.  Functions
that would crash (non-null assertions, thrown errors) return `Option`/`Except`.
-/

namespace Ludo

/-! ## Data model (src/ludoV0/types.tsx) -/

inductive PlayerId where
  | RED
  | BLUE
  | YELLOW
  | GREEN
deriving DecidableEq, Repr

inductive CellType where
  | HOME
  | START
  | SAFE
  | NORMAL
  | FINISH
  | WALL
deriving DecidableEq, Repr

inductive PlayerState where
  | NOT_STARTED
  | ROLLING
  | THINKING
  | MOVING
  | FINISHED
  | WON
  | LOST
deriving DecidableEq, Repr

structure Position where
  row : Nat
  col : Nat
deriving DecidableEq, Repr

structure Coin where
  id : String
  player : PlayerId
  position : Position
deriving DecidableEq, Repr

structure Cell where
  id : Nat
  position : Position
  type : CellType
  player : Option PlayerId
  color : String
  coins : List Coin
deriving DecidableEq, Repr

abbrev BoardMatrix := List (List Cell)

structure DiceState where
  value : Nat
  rolling : Bool
deriving DecidableEq, Repr

structure Player where
  id : PlayerId
  state : PlayerState
  coins : List Coin
  movesLeft : Int
  nextPossibleStates : List PlayerState
deriving DecidableEq, Repr

structure LudoGameState where
  currentPlayer : PlayerId
  players : List Player
  boardMatrix : BoardMatrix
  started : Bool
  diceState : DiceState
deriving DecidableEq, Repr

/-- Colors enum from types.tsx (string constants). -/
def Colors.BLACK : String := "#000000"

def Colors.WHITE : String := "#ffffff"

def Colors.RED : String := "#ff0000"

def Colors.BLUE : String := "#0088ff"

def Colors.YELLOW : String := "#ffff00"

def Colors.GREEN : String := "#00ff00"

/-! ## Board model (src/ludoV0/data.helpers.tsx) -/

def BOARD_SIZE : Nat := 15

/-- getPlayerColor from data.helpers.tsx: switch on the optional player id,
defaulting to white. -/
def getPlayerColor : Option PlayerId → String
  | some PlayerId.RED => Colors.RED
  | some PlayerId.BLUE => Colors.BLUE
  | some PlayerId.YELLOW => Colors.YELLOW
  | some PlayerId.GREEN => Colors.GREEN
  | none => Colors.WHITE

/-- One `coins.push({id: uuid(), player, position})` call.  The source draws a
fresh random uuid v4 per pushed coin; the draws are modelled as the family
`uuid : Nat → Nat → String` indexed by the (row, col) of the push — each
(row, col) pushes at most one coin, so every push gets its own independent
draw, in keeping with the generator's freshness. -/
def pushCoin (uuid : Nat → Nat → String) (row col : Nat) (player : PlayerId)
    (acc : List Coin) : List Coin :=
  acc ++ [{ id := uuid row col, player := player, position := { row := row, col := col } }]

/-- createCoinInstance from data.helpers.tsx: coins are pushed in exactly the
source's branch order (the branch conditions are mutually exclusive, so the
list has at most one coin). -/
def createCoinInstance (uuid : Nat → Nat → String) (row col : Nat) : List Coin :=
  let coins : List Coin := []
  let coins := if row = 2 ∧ (col = 2 ∨ col = 3) then pushCoin uuid row col PlayerId.RED coins else coins
  let coins := if row = 2 ∧ (col = 11 ∨ col = 12) then pushCoin uuid row col PlayerId.GREEN coins else coins
  let coins := if row = 3 ∧ (col = 2 ∨ col = 3) then pushCoin uuid row col PlayerId.RED coins else coins
  let coins := if row = 3 ∧ (col = 11 ∨ col = 12) then pushCoin uuid row col PlayerId.GREEN coins else coins
  let coins := if row = 11 ∧ (col = 2 ∨ col = 3) then pushCoin uuid row col PlayerId.BLUE coins else coins
  let coins := if row = 11 ∧ (col = 11 ∨ col = 12) then pushCoin uuid row col PlayerId.YELLOW coins else coins
  let coins := if row = 12 ∧ (col = 2 ∨ col = 3) then pushCoin uuid row col PlayerId.BLUE coins else coins
  let coins := if row = 12 ∧ (col = 11 ∨ col = 12) then pushCoin uuid row col PlayerId.YELLOW coins else coins
  coins

/-- cellTypeMask from getBoardMatrix (0 wall, 1 track, 2 safe, 3 start,
4 finish, 5 home). -/
def cellTypeMask : List (List Nat) :=
  [[0, 0, 0, 0, 0, 0, 1, 1, 1, 0, 0, 0, 0, 0, 0],
   [0, 0, 0, 0, 0, 0, 1, 2, 3, 0, 0, 0, 0, 0, 0],
   [0, 0, 5, 5, 0, 0, 2, 2, 1, 0, 0, 5, 5, 0, 0],
   [0, 0, 5, 5, 0, 0, 1, 2, 1, 0, 0, 5, 5, 0, 0],
   [0, 0, 0, 0, 0, 0, 1, 2, 1, 0, 0, 0, 0, 0, 0],
   [0, 0, 0, 0, 0, 0, 1, 2, 1, 0, 0, 0, 0, 0, 0],
   [1, 3, 1, 1, 1, 1, 0, 4, 0, 1, 1, 1, 2, 1, 1],
   [1, 2, 2, 2, 2, 2, 4, 0, 4, 2, 2, 2, 2, 2, 1],
   [1, 1, 2, 1, 1, 1, 0, 4, 0, 1, 1, 1, 1, 3, 1],
   [0, 0, 0, 0, 0, 0, 1, 2, 1, 0, 0, 0, 0, 0, 0],
   [0, 0, 0, 0, 0, 0, 1, 2, 1, 0, 0, 0, 0, 0, 0],
   [0, 0, 5, 5, 0, 0, 1, 2, 1, 0, 0, 5, 5, 0, 0],
   [0, 0, 5, 5, 0, 0, 1, 2, 3, 0, 0, 5, 5, 0, 0],
   [0, 0, 0, 0, 0, 0, 3, 2, 1, 0, 0, 0, 0, 0, 0],
   [0, 0, 0, 0, 0, 0, 1, 1, 1, 0, 0, 0, 0, 0, 0]]

/-- playerMask from getBoardMatrix (0 none, 1 red, 2 green, 3 yellow,
4 blue). -/
def playerMask : List (List Nat) :=
  [[0, 0, 0, 0, 0, 0, 0, 0, 0, 0, 0, 0, 0, 0, 0],
   [0, 0, 0, 0, 0, 0, 0, 2, 2, 0, 0, 0, 0, 0, 0],
   [0, 0, 0, 0, 0, 0, 0, 2, 0, 0, 0, 0, 0, 0, 0],
   [0, 0, 0, 0, 0, 0, 0, 2, 0, 0, 0, 0, 0, 0, 0],
   [0, 0, 0, 0, 0, 0, 0, 2, 0, 0, 0, 0, 0, 0, 0],
   [0, 0, 0, 0, 0, 0, 0, 2, 0, 0, 0, 0, 0, 0, 0],
   [0, 1, 0, 0, 0, 0, 0, 2, 0, 0, 0, 0, 0, 0, 0],
   [0, 1, 1, 1, 1, 1, 1, 0, 3, 3, 3, 3, 3, 3, 0],
   [0, 0, 0, 0, 0, 0, 0, 4, 0, 0, 0, 0, 0, 3, 0],
   [0, 0, 0, 0, 0, 0, 0, 4, 0, 0, 0, 0, 0, 0, 0],
   [0, 0, 0, 0, 0, 0, 0, 4, 0, 0, 0, 0, 0, 0, 0],
   [0, 0, 0, 0, 0, 0, 0, 4, 0, 0, 0, 0, 0, 0, 0],
   [0, 0, 0, 0, 0, 0, 0, 4, 0, 0, 0, 0, 0, 0, 0],
   [0, 0, 0, 0, 0, 0, 4, 4, 0, 0, 0, 0, 0, 0, 0],
   [0, 0, 0, 0, 0, 0, 0, 0, 0, 0, 0, 0, 0, 0, 0]]

/-- colorMask from getBoardMatrix (0 white, 1 red, 2 green, 3 yellow,
4 blue). -/
def colorMask : List (List Nat) :=
  [[1, 1, 1, 1, 1, 1, 0, 0, 0, 2, 2, 2, 2, 2, 2],
   [1, 0, 0, 0, 0, 1, 0, 2, 2, 2, 0, 0, 0, 0, 2],
   [1, 0, 1, 1, 0, 1, 0, 2, 0, 2, 0, 2, 2, 0, 2],
   [1, 0, 1, 1, 0, 1, 0, 2, 0, 2, 0, 2, 2, 0, 2],
   [1, 0, 0, 0, 0, 1, 0, 2, 0, 2, 0, 0, 0, 0, 2],
   [1, 1, 1, 1, 1, 1, 0, 2, 0, 2, 2, 2, 2, 2, 2],
   [0, 1, 0, 0, 0, 0, 0, 2, 0, 0, 0, 0, 0, 0, 0],
   [0, 1, 1, 1, 1, 1, 1, 0, 3, 3, 3, 3, 3, 3, 0],
   [0, 0, 0, 0, 0, 0, 0, 4, 0, 0, 0, 0, 0, 3, 0],
   [4, 4, 4, 4, 4, 4, 0, 4, 0, 3, 3, 3, 3, 3, 3],
   [4, 0, 0, 0, 0, 4, 0, 4, 0, 3, 0, 0, 0, 0, 3],
   [4, 0, 4, 4, 0, 4, 0, 4, 0, 3, 0, 3, 3, 0, 3],
   [4, 0, 4, 4, 0, 4, 0, 4, 0, 3, 0, 3, 3, 0, 3],
   [4, 0, 0, 0, 0, 4, 4, 4, 0, 3, 0, 0, 0, 0, 3],
   [4, 4, 4, 4, 4, 4, 0, 0, 0, 3, 3, 3, 3, 3, 3]]

/-- Reads `mask[i]![j]` (indices are always in range in the source loops). -/
def maskAt (mask : List (List Nat)) (i j : Nat) : Nat :=
  (mask.getD i []).getD j 0

/-- Builds the cell at grid coordinate `(i, j)` exactly as one iteration of
getBoardMatrix's inner loop: type from cellTypeMask via the 0..5 mapping,
optional player from playerMask, color from colorMask, coins from
createCoinInstance. -/
def mkCell (uuid : Nat → Nat → String) (i j : Nat) : Cell :=
  let cellType := maskAt cellTypeMask i j
  let player := maskAt playerMask i j
  let color := maskAt colorMask i j
  { id := i * BOARD_SIZE + j,
     position := { row := i, col := j },
     type :=
       match cellType with
       | 1 => CellType.NORMAL
       | 2 => CellType.SAFE
       | 3 => CellType.START
       | 4 => CellType.FINISH
       | 5 => CellType.HOME
       | _ => CellType.WALL,
     player :=
       match player with
       | 1 => some PlayerId.RED
       | 2 => some PlayerId.GREEN
       | 3 => some PlayerId.YELLOW
       | 4 => some PlayerId.BLUE
       | _ => none,
     color :=
       match color with
       | 1 => getPlayerColor (some PlayerId.RED)
       | 2 => getPlayerColor (some PlayerId.GREEN)
       | 3 => getPlayerColor (some PlayerId.YELLOW)
       | 4 => getPlayerColor (some PlayerId.BLUE)
       | _ => getPlayerColor none,
     coins := createCoinInstance uuid i j }

/-- getBoardMatrix from data.helpers.tsx, with the random uuid v4 draws made
an explicit argument: the two nested `for` loops over the 15x15 grid become
maps over the row and column ranges. -/
def getBoardMatrix (uuid : Nat → Nat → String) : BoardMatrix :=
  (List.range BOARD_SIZE).map fun i =>
    (List.range BOARD_SIZE).map fun j => mkCell uuid i j

/-! ## Turn state machine (src/unnamed/part_000, gameState.helpers) -/

/-- getCurrentPlayer from gameState.helpers: `players.find(p.id ===
currentPlayer)`.  The source applies a non-null assertion to the result; here
the lookup stays an `Option`, and each caller that would crash on a missing
player is likewise `Option`-valued. -/
def getCurrentPlayer (gameState : LudoGameState) : Option Player :=
  gameState.players.find? fun player => decide (player.id = gameState.currentPlayer)

/-- The arrow function mapped over the players by reducePlayerState: the
player with the given id gets the new state, `movesLeft ?? movesLeft - 1`, and
`nextPossibleStates ?? nextPossibleStates`; every other player is returned
unchanged. -/
def applyPlayerUpdate (playerId : PlayerId) (nextState : PlayerState)
    (movesLeft : Option Int) (nextPossibleStates : Option (List PlayerState))
    (player : Player) : Player :=
  if player.id = playerId then
    { player with
      state := nextState,
      movesLeft := movesLeft.getD (player.movesLeft - 1),
      nextPossibleStates := nextPossibleStates.getD player.nextPossibleStates }
  else player

/-- reducePlayerState from gameState.helpers. -/
def reducePlayerState (playerId : PlayerId) (nextState : PlayerState)
    (gameState : LudoGameState) (movesLeft : Option Int)
    (nextPossibleStates : Option (List PlayerState)) : List Player :=
  gameState.players.map (applyPlayerUpdate playerId nextState movesLeft nextPossibleStates)

/-- reduceDiceClick from gameState.helpers: `movesLeft = current.movesLeft - 1`
reassigned to 1 on a 6 (with nextPossibleStates reassigned to [THINKING]),
dice set to `{value, rolling: true}`, current player moved to ROLLING.
Returns `none` when the current player is absent from the roster (the
source's fatal non-null assertion). -/
def reduceDiceClick (nextDiceValue : Nat) (gameState : LudoGameState) :
    Option LudoGameState :=
  (getCurrentPlayer gameState).map fun currentPlayer =>
    let movesLeft : Int :=
      if nextDiceValue = 6 then 1 else currentPlayer.movesLeft - 1
    let nextPossibleStates : List PlayerState :=
      if nextDiceValue = 6 then [PlayerState.THINKING] else currentPlayer.nextPossibleStates
    { gameState with
      diceState := { value := nextDiceValue, rolling := true },
      players := reducePlayerState gameState.currentPlayer PlayerState.ROLLING gameState
        (some movesLeft) (some nextPossibleStates) }

/-- reduceDiceRollDone from gameState.helpers: same shape as reduceDiceClick
but keyed on the settled `diceState.value`, moving the current player to
THINKING, clearing `rolling` (value carried over), and forcing
`movesLeft = 1`, `nextPossibleStates = [MOVING]` on a settled 6. -/
def reduceDiceRollDone (gameState : LudoGameState) : Option LudoGameState :=
  (getCurrentPlayer gameState).map fun currentPlayer =>
    let movesLeft : Int :=
      if gameState.diceState.value = 6 then 1 else currentPlayer.movesLeft - 1
    let nextPossibleStates : List PlayerState :=
      if gameState.diceState.value = 6 then [PlayerState.MOVING] else currentPlayer.nextPossibleStates
    { gameState with
      diceState := { value := gameState.diceState.value, rolling := false },
      players := reducePlayerState gameState.currentPlayer PlayerState.THINKING gameState
        (some movesLeft) (some nextPossibleStates) }

/-- initiateGameState from gameState.helpers: builds the board, collects the
cells whose first coin is defined (`!!cell.coins[0]`), and seeds each player
with the first coins of its cells, `movesLeft = 3`, NOT_STARTED, and
`nextPossibleStates = [ROLLING]`; RED starts, dice shows 3 at rest. -/
def initiateGameState (uuid : Nat → Nat → String) : LudoGameState :=
  let boardMatrix := getBoardMatrix uuid
  let cellsWithCoins := boardMatrix.flatten.filter fun cell => !cell.coins.isEmpty
  let createPlayer := fun (playerId : PlayerId) =>
    let cells := cellsWithCoins.filter fun cell =>
      decide (cell.coins.head?.map Coin.player = some playerId)
    ({ id := playerId,
       state := PlayerState.NOT_STARTED,
       coins := cells.filterMap fun cell => cell.coins.head?,
       movesLeft := 3,
       nextPossibleStates := [PlayerState.ROLLING] } : Player)
  { currentPlayer := PlayerId.RED,
    started := false,
    boardMatrix := boardMatrix,
    players := [createPlayer PlayerId.RED, createPlayer PlayerId.GREEN,
                createPlayer PlayerId.YELLOW, createPlayer PlayerId.BLUE],
    diceState := { value := 3, rolling := false } }

/-- One accepted input event of the turn machine: a dice click with a value
in 1..6, or the roll-settled signal. -/
inductive Step : LudoGameState → LudoGameState → Prop where
  | click (v : Nat) (s sNext : LudoGameState) (h1 : 1 ≤ v) (h2 : v ≤ 6)
      (h : reduceDiceClick v s = some sNext) : Step s sNext
  | settle (s sNext : LudoGameState) (h : reduceDiceRollDone s = some sNext) :
      Step s sNext

/-- States reachable from the initial game state by dice-click and
roll-settled events. -/
def Reachable (uuid : Nat → Nat → String) (s : LudoGameState) : Prop :=
  Relation.ReflTransGen Step (initiateGameState uuid) s

/-! ## Easing curves (src/unnamed/part_001, graphics.helpers) -/

/-- easeOut from graphics.helpers: throws outside [0, 1], otherwise
`1 - (1 - t)^2`. -/
def easeOut (time : ℚ) : Except String ℚ :=
  if time > 1 then Except.error "Time value cannot be greater than 1"
  else if time < 0 then Except.error "Time value cannot be less than 0"
  else Except.ok (1 - (1 - time) ^ 2)

/-- easeIn from graphics.helpers: throws outside [0, 1], otherwise `t^2`. -/
def easeIn (time : ℚ) : Except String ℚ :=
  if time > 1 then Except.error "Time value cannot be greater than 1"
  else if time < 0 then Except.error "Time value cannot be less than 0"
  else Except.ok (time ^ 2)

/-- easeInOut from graphics.helpers: throws outside [0, 1], otherwise
`t < 0.5 ? 2 t^2 : 1 - (-2 t + 2)^2 / 2`. -/
def easeInOut (time : ℚ) : Except String ℚ :=
  if time > 1 then Except.error "Time value cannot be greater than 1"
  else if time < 0 then Except.error "Time value cannot be less than 0"
  else Except.ok (if time < 1 / 2 then 2 * time ^ 2 else 1 - (-2 * time + 2) ^ 2 / 2)

/-- True when the thrown-error branch of an easing function was taken. -/
def isErr : Except String ℚ → Bool
  | Except.error _ => true
  | Except.ok _ => false

/-! ## Animation scheduler (src/ludoV0/ludoRenderer.tsx, diceRenderer.tsx)

The process-wide mutable slots (`window.ludoAnimationStartTime`,
`window.animationStartTime`, `window.lastDiceValue`) are passed in and
returned explicitly; `performance.now()` is the `now` argument;
`Math.random()` draws are arguments.  One call of the embedded function is
one animation tick. -/

structure Vertex where
  x : ℚ
  y : ℚ
deriving DecidableEq, Repr

/-- JavaScript truthiness of an optional number slot: `undefined` and `0` are
falsy, every other number is truthy. -/
def truthyQ : Option ℚ → Bool
  | none => false
  | some x => decide (x ≠ 0)

/-- Result of one animateCoins tick: the `window.ludoAnimationStartTime` slot
after the call, the coin position drawn by renderCoin on this tick (if any),
and whether onAnimationComplete fired on this tick. -/
structure CoinTick where
  slot : Option ℚ
  rendered : Option Vertex
  completed : Bool
deriving DecidableEq, Repr

/-- animateCoins from ludoRenderer.tsx (rendering calls erased, timing and
callback logic kept): sub-two-point paths are a no-op; an empty (falsy) slot
is armed with `now` and nothing is drawn; once `elapsed > duration` the slot
is cleared to `undefined`, onAnimationComplete fires, and the function
returns before drawing; otherwise the coin is drawn at the easeInOut
interpolation between `path[0]` and `path[1]`. -/
def animateCoins (slot : Option ℚ) (now : ℚ) (animationPath : List Vertex)
    (animationDuration : ℚ) : Except String CoinTick :=
  if animationPath.length < 2 then
    Except.ok { slot := slot, rendered := none, completed := false }
  else
    let start := animationPath.headD { x := 0, y := 0 }
    let stop := animationPath.getD 1 { x := 0, y := 0 }
    if truthyQ slot = true then
      let startTime := slot.getD 0
      let timeElapsed := now - startTime
      if timeElapsed > animationDuration then
        Except.ok { slot := none, rendered := none, completed := true }
      else
        match easeInOut (timeElapsed / animationDuration) with
        | Except.error e => Except.error e
        | Except.ok easeOutFactor =>
          Except.ok
            { slot := slot,
              rendered := some
                { x := start.x + (stop.x - start.x) * easeOutFactor,
                  y := start.y + (stop.y - start.y) * easeOutFactor },
              completed := false }
    else
      Except.ok { slot := some now, rendered := none, completed := false }

/-- JavaScript `window.lastDiceValue || diceValue`: `undefined` and `0` fall
back to the right operand. -/
def jsOrNat : Option Nat → Nat → Nat
  | none, d => d
  | some n, d => if n = 0 then d else n

/-- The two process-wide slots of the dice animation:
`window.animationStartTime` and `window.lastDiceValue`. -/
structure DiceGlobals where
  animationStartTime : Option ℚ
  lastDiceValue : Option Nat
deriving DecidableEq, Repr

/-- Result of one animateDiceFace tick: the window slots after the call, the
face renderDiceFace drew on this tick, and whether onRollDone fired on this
tick. -/
structure DiceTick where
  globals : DiceGlobals
  renderedFace : Nat
  rollDoneFired : Bool
deriving DecidableEq, Repr

/-- animateDiceFace from diceRenderer.tsx (drawing erased, timing, slots and
callback logic kept).  `ticket` is this tick's `Math.random()` draw compared
against the easeOut skip probability; `nextRandomFace` is this tick's
`getRandomDiceValue()` draw.  While rolling the face drawn is
`window.lastDiceValue || diceState.value`; on the completion tick
(`elapsed > duration`) the start-time slot is set to `0`, the retained face
snaps to `diceState.value` and onRollDone fires; when not rolling the face
drawn is `diceState.value`. -/
def animateDiceFace (globals : DiceGlobals) (diceState : DiceState) (now : ℚ)
    (animationDuration : ℚ) (ticket : ℚ) (nextRandomFace : Nat) :
    Except String DiceTick :=
  if diceState.rolling then
    let lastDiceValue := jsOrNat globals.lastDiceValue diceState.value
    if truthyQ globals.animationStartTime = true then
      let timeElapsed := now - globals.animationStartTime.getD 0
      if timeElapsed > animationDuration then
        Except.ok
          { globals := { animationStartTime := some 0, lastDiceValue := some diceState.value },
            renderedFace := lastDiceValue,
            rollDoneFired := true }
      else
        match easeOut (timeElapsed / animationDuration) with
        | Except.error e => Except.error e
        | Except.ok skipProbability =>
          if ticket < skipProbability then
            Except.ok { globals := globals, renderedFace := lastDiceValue, rollDoneFired := false }
          else
            Except.ok
              { globals := { animationStartTime := globals.animationStartTime,
                             lastDiceValue := some nextRandomFace },
                renderedFace := lastDiceValue,
                rollDoneFired := false }
    else
      Except.ok
        { globals := { animationStartTime := some now, lastDiceValue := some nextRandomFace },
          renderedFace := lastDiceValue,
          rollDoneFired := false }
  else
    Except.ok { globals := globals, renderedFace := diceState.value, rollDoneFired := false }

/-! ## Observations used by the theorems -/

/-- A coin with its uuid erased. -/
structure CoinShape where
  player : PlayerId
  position : Position
deriving DecidableEq, Repr

/-- Erases a coin's uuid. -/
def Coin.shape (c : Coin) : CoinShape := { player := c.player, position := c.position }

/-- A cell with its coins' uuids erased. -/
structure CellShape where
  id : Nat
  position : Position
  type : CellType
  player : Option PlayerId
  color : String
  coins : List CoinShape
deriving DecidableEq, Repr

/-- Erases the coin uuids of a cell. -/
def Cell.shape (c : Cell) : CellShape :=
  { id := c.id, position := c.position, type := c.type, player := c.player,
    color := c.color, coins := c.coins.map Coin.shape }

/-- Erases the coin uuids of a whole board. -/
def boardShape (b : BoardMatrix) : List (List CellShape) :=
  b.map fun row => row.map Cell.shape

/-- The 2x2 home-nest block of each player: Red rows 2-3 cols 2-3, Green rows
2-3 cols 11-12, Blue rows 11-12 cols 2-3, Yellow rows 11-12 cols 11-12. -/
def inHomeNest (p : PlayerId) (pos : Position) : Bool :=
  match p with
  | PlayerId.RED => decide ((pos.row = 2 ∨ pos.row = 3) ∧ (pos.col = 2 ∨ pos.col = 3))
  | PlayerId.GREEN => decide ((pos.row = 2 ∨ pos.row = 3) ∧ (pos.col = 11 ∨ pos.col = 12))
  | PlayerId.BLUE => decide ((pos.row = 11 ∨ pos.row = 12) ∧ (pos.col = 2 ∨ pos.col = 3))
  | PlayerId.YELLOW => decide ((pos.row = 11 ∨ pos.row = 12) ∧ (pos.col = 11 ∨ pos.col = 12))

/-- A placeholder player used only as the (never reached) default of an
`Option.getD` when naming the player a successful lookup returned. -/
def dummyPlayer : Player :=
  { id := PlayerId.RED, state := PlayerState.NOT_STARTED, coins := [],
    movesLeft := 0, nextPossibleStates := [] }

/-- Concrete initial state for the C2 trace (one fixed uuid draw). -/
def c2s0 : LudoGameState := initiateGameState fun _ _ => "c2"

/-- C2 trace, after clicking a roll of 1 on the initial state. -/
def c2s1 : LudoGameState := (reduceDiceClick 1 c2s0).getD c2s0

/-- C2 trace, after the roll of 1 settles. -/
def c2s2 : LudoGameState := (reduceDiceRollDone c2s1).getD c2s1

/-- C2 trace, after clicking a second roll of 1. -/
def c2s3 : LudoGameState := (reduceDiceClick 1 c2s2).getD c2s2

/-- C2 trace, after the second roll of 1 settles. -/
def c2s4 : LudoGameState := (reduceDiceRollDone c2s3).getD c2s3

/-- Row 2 of the board built with a fixed uuid draw (for the C7 witness). -/
def c7row : List Cell := (getBoardMatrix (fun _ _ => "w")).getD 2 []

/-- The home-nest cell (2, 2) of that board. -/
def c7cell : Cell := c7row.getD 2 (mkCell (fun _ _ => "w") 0 0)

/-- The coin sitting on that cell. -/
def c7coin : Coin :=
  c7cell.coins.getD 0 { id := "", player := PlayerId.RED, position := { row := 0, col := 0 } }

/-- Concrete game state used to instantiate the C3 theorem. -/
def c3s : LudoGameState := initiateGameState fun _ _ => "c3"

/-- The current player of that state. -/
def c3p : Player := (getCurrentPlayer c3s).getD dummyPlayer

/-- Concrete game state used to instantiate the C4 theorem. -/
def c4s : LudoGameState := initiateGameState fun _ _ => "c4"

/-- The current player of that state. -/
def c4p : Player := (getCurrentPlayer c4s).getD dummyPlayer

/-- Concrete game state used to instantiate the C5 theorem. -/
def c5s : LudoGameState := initiateGameState fun _ _ => "c5"

/-- The current player of that state. -/
def c5p : Player := (getCurrentPlayer c5s).getD dummyPlayer

/-! ## C1 — determinism of the board builder -/

set_option maxHeartbeats 4000000 in
set_option maxRecDepth 100000 in
/-- C1 counterexample: getBoardMatrix is not deterministic in every field.
Two invocations whose random uuid generator draws differ (here: one run where
every draw is "a", one where every draw is "b") return different BoardMatrix
values — the coin identities differ. -/
theorem c1_counterexample :
    getBoardMatrix (fun _ _ => "a") ≠ getBoardMatrix (fun _ _ => "b") := by
  decide

set_option maxHeartbeats 4000000 in
set_option maxRecDepth 100000 in
/-- C1 (amended): getBoardMatrix is deterministic in every field except the
coin ids: any two invocations, whatever the uuid generator draws, return
boards that agree exactly once coin ids are erased (same cell ids, positions,
types, owners, colors, and coin lists up to coin identity). -/
theorem c1_theorem (uuid1 uuid2 : Nat → Nat → String) :
    boardShape (getBoardMatrix uuid1) = boardShape (getBoardMatrix uuid2) := rfl

/-- C1 witness: the amended determinism at two concrete uuid streams. -/
theorem c1_witness :
    boardShape (getBoardMatrix (fun _ _ => "a")) = boardShape (getBoardMatrix (fun _ _ => "b")) :=
  c1_theorem (fun _ _ => "a") (fun _ _ => "b")

/-! ## C6 — the initial game state -/

set_option maxHeartbeats 16000000 in
set_option maxRecDepth 100000 in
/-- C6: for every run of the uuid generator, initiateGameState seeds exactly
16 coins, 4 per player in the roster order Red, Green, Yellow, Blue, every
coin lies in its owner's 2x2 home-nest block and belongs to its holder;
currentPlayer is Red and the dice shows value 3, not rolling. -/
theorem c6_theorem (uuid : Nat → Nat → String) :
    ((initiateGameState uuid).players.map fun p => p.coins.length).sum = 16 ∧
    ((initiateGameState uuid).players.map fun p => (p.id, p.coins.length)) =
      [(PlayerId.RED, 4), (PlayerId.GREEN, 4), (PlayerId.YELLOW, 4), (PlayerId.BLUE, 4)] ∧
    (∀ p, p ∈ (initiateGameState uuid).players → ∀ c, c ∈ p.coins →
      c.player = p.id ∧ inHomeNest p.id c.position = true) ∧
    (initiateGameState uuid).currentPlayer = PlayerId.RED ∧
    (initiateGameState uuid).diceState = { value := 3, rolling := false } := by
  refine ⟨rfl, rfl, ?_, rfl, rfl⟩
  intro p hp c hc
  have hall : ((initiateGameState uuid).players.all fun p =>
      p.coins.all fun c => decide (c.player = p.id) && inHomeNest p.id c.position) = true := rfl
  rw [List.all_eq_true] at hall
  have hp2 := hall p hp
  rw [List.all_eq_true] at hp2
  have hc2 := hp2 c hc
  rw [Bool.and_eq_true] at hc2
  exact ⟨of_decide_eq_true hc2.1, hc2.2⟩

/-- C6 witness: the initial-state properties at a concrete uuid stream. -/
theorem c6_witness :
    ((initiateGameState (fun _ _ => "u")).players.map fun p => p.coins.length).sum = 16 ∧
    ((initiateGameState (fun _ _ => "u")).players.map fun p => (p.id, p.coins.length)) =
      [(PlayerId.RED, 4), (PlayerId.GREEN, 4), (PlayerId.YELLOW, 4), (PlayerId.BLUE, 4)] ∧
    (∀ p, p ∈ (initiateGameState (fun _ _ => "u")).players → ∀ c, c ∈ p.coins →
      c.player = p.id ∧ inHomeNest p.id c.position = true) ∧
    (initiateGameState (fun _ _ => "u")).currentPlayer = PlayerId.RED ∧
    (initiateGameState (fun _ _ => "u")).diceState = { value := 3, rolling := false } :=
  c6_theorem (fun _ _ => "u")

/-! ## C7 — where the coins originate -/

set_option maxHeartbeats 4000000 in
set_option maxRecDepth 100000 in
/-- C7 counterexample: in the built board the coins do not sit on cells of
type Start owned by the coin's player.  With any concrete uuid stream, the
coin-holding cells (the home-nest blocks) have CellType Home and no owner. -/
theorem c7_counterexample :
    ¬ (∀ row, row ∈ getBoardMatrix (fun _ _ => "u") → ∀ cell, cell ∈ row →
        ∀ c, c ∈ cell.coins → cell.type = CellType.START ∧ cell.player = some c.player) := by
  decide

set_option maxHeartbeats 4000000 in
set_option maxRecDepth 100000 in
/-- C7 (amended): every coin in the initial layout originates on a cell of
CellType Home with no owner recorded on the cell, and the coin's stored
position is the position of that cell. -/
theorem c7_theorem (uuid : Nat → Nat → String) :
    ∀ row, row ∈ getBoardMatrix uuid → ∀ cell, cell ∈ row →
      ∀ c, c ∈ cell.coins →
        cell.type = CellType.HOME ∧ cell.player = none ∧ c.position = cell.position := by
  intro row hrow cell hcell c hc
  have hall : ((getBoardMatrix uuid).all fun row => row.all fun cell =>
      cell.coins.all fun c =>
        decide (cell.type = CellType.HOME) && decide (cell.player = none) &&
          decide (c.position = cell.position)) = true := rfl
  rw [List.all_eq_true] at hall
  have h1 := hall row hrow
  rw [List.all_eq_true] at h1
  have h2 := h1 cell hcell
  rw [List.all_eq_true] at h2
  have h3 := h2 c hc
  rw [Bool.and_eq_true, Bool.and_eq_true] at h3
  exact ⟨of_decide_eq_true h3.1.1, of_decide_eq_true h3.1.2, of_decide_eq_true h3.2⟩

set_option maxHeartbeats 4000000 in
/-- C7 witness: the amended origin property at the concrete coin-holding cell
(2, 2) of a board built with a fixed uuid draw. -/
theorem c7_witness :
    c7cell.type = CellType.HOME ∧ c7cell.player = none ∧ c7coin.position = c7cell.position :=
  c7_theorem (fun _ _ => "w") c7row (by decide) c7cell (by decide) c7coin (by decide)

/-! ## Shared lemmas about the two reducers -/

/-- The per-player update of reducePlayerState never changes a player's id. -/
lemma applyPlayerUpdate_id (playerId : PlayerId) (nextState : PlayerState)
    (movesLeft : Option Int) (nextPossibleStates : Option (List PlayerState))
    (player : Player) :
    (applyPlayerUpdate playerId nextState movesLeft nextPossibleStates player).id = player.id := by
  unfold applyPlayerUpdate
  split <;> rfl

/-- A successful current-player lookup returns a player carrying the current
player's id. -/
lemma getCurrentPlayer_mem (s : LudoGameState) (p : Player)
    (hp : getCurrentPlayer s = some p) : p.id = s.currentPlayer := by
  unfold getCurrentPlayer at hp
  have h := List.find?_some hp
  simp only [decide_eq_true_eq] at h
  exact h

/-- After reducePlayerState rewrites the roster (and the dice state is
replaced), the current-player lookup returns the updated player. -/
lemma getCurrentPlayer_update (s : LudoGameState) (p : Player)
    (hp : getCurrentPlayer s = some p) (nextState : PlayerState)
    (movesLeft : Option Int) (nextPossibleStates : Option (List PlayerState))
    (ds : DiceState) :
    getCurrentPlayer
      { s with
        diceState := ds,
        players := reducePlayerState s.currentPlayer nextState s movesLeft nextPossibleStates } =
      some (applyPlayerUpdate s.currentPlayer nextState movesLeft nextPossibleStates p) := by
  show (s.players.map (applyPlayerUpdate s.currentPlayer nextState movesLeft nextPossibleStates)).find?
      (fun q => decide (q.id = s.currentPlayer)) = _
  rw [List.find?_map]
  have hcomp : ((fun q => decide (q.id = s.currentPlayer)) ∘
      applyPlayerUpdate s.currentPlayer nextState movesLeft nextPossibleStates) =
      fun q => decide (q.id = s.currentPlayer) := by
    funext q
    simp only [Function.comp_apply, applyPlayerUpdate_id]
  rw [hcomp]
  unfold getCurrentPlayer at hp
  rw [hp]
  rfl

/-- Closed form of reduceDiceClick on a state whose current player is
present. -/
lemma reduceDiceClick_eq (v : Nat) (s : LudoGameState) (p : Player)
    (hp : getCurrentPlayer s = some p) :
    reduceDiceClick v s = some
      { s with
        diceState := { value := v, rolling := true },
        players := reducePlayerState s.currentPlayer PlayerState.ROLLING s
          (some (if v = 6 then 1 else p.movesLeft - 1))
          (some (if v = 6 then [PlayerState.THINKING] else p.nextPossibleStates)) } := by
  unfold reduceDiceClick
  rw [hp]
  rfl

/-- Closed form of reduceDiceRollDone on a state whose current player is
present. -/
lemma reduceDiceRollDone_eq (s : LudoGameState) (p : Player)
    (hp : getCurrentPlayer s = some p) :
    reduceDiceRollDone s = some
      { s with
        diceState := { value := s.diceState.value, rolling := false },
        players := reducePlayerState s.currentPlayer PlayerState.THINKING s
          (some (if s.diceState.value = 6 then 1 else p.movesLeft - 1))
          (some (if s.diceState.value = 6 then [PlayerState.MOVING] else p.nextPossibleStates)) } := by
  unfold reduceDiceRollDone
  rw [hp]
  rfl

/-! ## C2 — the movesLeft invariant -/

set_option maxHeartbeats 16000000 in
set_option maxRecDepth 100000 in
/-- C2: the claimed invariant is false of the code as written.  From the
initial state, the four-event trace click 1, settle, click 1, settle is
accepted by the machine and leaves the current player (Red) with
movesLeft = -1: both the click reducer and the settle reducer decrement
movesLeft for a non-6 value, so each full cycle costs 2 of the initial 3. -/
theorem c2_code_bug :
    Reachable (fun _ _ => "c2") c2s4 ∧ ∃ p, p ∈ c2s4.players ∧ p.movesLeft < 0 := by
  constructor
  · have h1 : reduceDiceClick 1 c2s0 = some c2s1 := rfl
    have h2 : reduceDiceRollDone c2s1 = some c2s2 := rfl
    have h3 : reduceDiceClick 1 c2s2 = some c2s3 := rfl
    have h4 : reduceDiceRollDone c2s3 = some c2s4 := rfl
    exact Relation.ReflTransGen.tail
      (Relation.ReflTransGen.tail
        (Relation.ReflTransGen.tail
          (Relation.ReflTransGen.single (Step.click 1 _ _ (by decide) (by decide) h1))
          (Step.settle _ _ h2))
        (Step.click 1 _ _ (by decide) (by decide) h3))
      (Step.settle _ _ h4)
  · decide

/-! ## C3 — the dice-click transition -/

/-- C3: for every state with its current player present and every dice value
1..6, reduceDiceClick sets the dice to the clicked value with rolling true
and moves the current player to ROLLING; a non-6 value decrements that
player's movesLeft by one and carries nextPossibleStates over, while a 6
forces movesLeft to 1 and nextPossibleStates to [THINKING] regardless of the
prior budget. -/
theorem c3_theorem (v : Nat) (s : LudoGameState) (p : Player)
    (hv1 : 1 ≤ v) (hv2 : v ≤ 6) (hp : getCurrentPlayer s = some p) :
    ∃ sNext, reduceDiceClick v s = some sNext ∧
      sNext.diceState = { value := v, rolling := true } ∧
      ∃ q, getCurrentPlayer sNext = some q ∧ q.state = PlayerState.ROLLING ∧
        (v ≠ 6 → q.movesLeft = p.movesLeft - 1 ∧ q.nextPossibleStates = p.nextPossibleStates) ∧
        (v = 6 → q.movesLeft = 1 ∧ q.nextPossibleStates = [PlayerState.THINKING]) := by
  refine ⟨_, reduceDiceClick_eq v s p hp, rfl,
    _, getCurrentPlayer_update s p hp PlayerState.ROLLING _ _ _, ?_, ?_, ?_⟩
  · simp [applyPlayerUpdate, getCurrentPlayer_mem s p hp]
  · intro h6
    simp [applyPlayerUpdate, getCurrentPlayer_mem s p hp, h6]
  · intro h6
    simp [applyPlayerUpdate, getCurrentPlayer_mem s p hp, h6]

set_option maxHeartbeats 16000000 in
set_option maxRecDepth 100000 in
/-- C3 witness: the dice-click transition at the concrete initial state with
a clicked value of 5. -/
theorem c3_witness :
    ∃ sNext, reduceDiceClick 5 c3s = some sNext ∧
      sNext.diceState = { value := 5, rolling := true } ∧
      ∃ q, getCurrentPlayer sNext = some q ∧ q.state = PlayerState.ROLLING ∧
        ((5 : Nat) ≠ 6 → q.movesLeft = c3p.movesLeft - 1 ∧
          q.nextPossibleStates = c3p.nextPossibleStates) ∧
        ((5 : Nat) = 6 → q.movesLeft = 1 ∧ q.nextPossibleStates = [PlayerState.THINKING]) :=
  c3_theorem 5 c3s c3p (by decide) (by decide) rfl

/-! ## C4 — the roll-settled transition -/

/-- C4: for every state with its current player present, reduceDiceRollDone
clears the rolling flag (keeping the settled value) and moves the current
player to THINKING; a settled 6 forces movesLeft to 1 and nextPossibleStates
to [MOVING], otherwise nextPossibleStates is carried over unchanged. -/
theorem c4_theorem (s : LudoGameState) (p : Player)
    (hp : getCurrentPlayer s = some p) :
    ∃ sNext, reduceDiceRollDone s = some sNext ∧
      sNext.diceState = { value := s.diceState.value, rolling := false } ∧
      ∃ q, getCurrentPlayer sNext = some q ∧ q.state = PlayerState.THINKING ∧
        (s.diceState.value = 6 → q.movesLeft = 1 ∧ q.nextPossibleStates = [PlayerState.MOVING]) ∧
        (s.diceState.value ≠ 6 → q.nextPossibleStates = p.nextPossibleStates) := by
  refine ⟨_, reduceDiceRollDone_eq s p hp, rfl,
    _, getCurrentPlayer_update s p hp PlayerState.THINKING _ _ _, ?_, ?_, ?_⟩
  · simp [applyPlayerUpdate, getCurrentPlayer_mem s p hp]
  · intro h6
    simp [applyPlayerUpdate, getCurrentPlayer_mem s p hp, h6]
  · intro h6
    simp [applyPlayerUpdate, getCurrentPlayer_mem s p hp, h6]

set_option maxHeartbeats 16000000 in
set_option maxRecDepth 100000 in
/-- C4 witness: the roll-settled transition at the concrete initial state
(whose settled dice value is 3). -/
theorem c4_witness :
    ∃ sNext, reduceDiceRollDone c4s = some sNext ∧
      sNext.diceState = { value := c4s.diceState.value, rolling := false } ∧
      ∃ q, getCurrentPlayer sNext = some q ∧ q.state = PlayerState.THINKING ∧
        (c4s.diceState.value = 6 → q.movesLeft = 1 ∧
          q.nextPossibleStates = [PlayerState.MOVING]) ∧
        (c4s.diceState.value ≠ 6 → q.nextPossibleStates = c4p.nextPossibleStates) :=
  c4_theorem c4s c4p rfl

/-! ## C5 — the settle-side decrement and the double decrement -/

/-- C5: for every state with its current player present and a settled value
other than 6, reduceDiceRollDone decrements the current player's movesLeft by
one; consequently a complete non-6 cycle — reduceDiceClick with a non-6 value
followed by reduceDiceRollDone — decreases the current player's movesLeft by
2 in total, not by 1. -/
theorem c5_theorem (v : Nat) (s : LudoGameState) (p : Player)
    (hv1 : 1 ≤ v) (hv2 : v ≤ 6) (hv : v ≠ 6)
    (hp : getCurrentPlayer s = some p) (hs : s.diceState.value ≠ 6) :
    (∃ sNext, reduceDiceRollDone s = some sNext ∧
       ∃ q, getCurrentPlayer sNext = some q ∧ q.movesLeft = p.movesLeft - 1) ∧
    (∃ sNext, (reduceDiceClick v s).bind reduceDiceRollDone = some sNext ∧
       ∃ q, getCurrentPlayer sNext = some q ∧ q.movesLeft = p.movesLeft - 2) := by
  constructor
  · refine ⟨_, reduceDiceRollDone_eq s p hp,
      _, getCurrentPlayer_update s p hp PlayerState.THINKING _ _ _, ?_⟩
    simp [applyPlayerUpdate, getCurrentPlayer_mem s p hp, hs]
  · have hQ1 := getCurrentPlayer_update s p hp PlayerState.ROLLING
      (some (if v = 6 then 1 else p.movesLeft - 1))
      (some (if v = 6 then [PlayerState.THINKING] else p.nextPossibleStates))
      { value := v, rolling := true }
    rw [reduceDiceClick_eq v s p hp, Option.some_bind]
    refine ⟨_, reduceDiceRollDone_eq _ _ hQ1,
      _, getCurrentPlayer_update _ _ hQ1 PlayerState.THINKING _ _ _, ?_⟩
    simp [applyPlayerUpdate, getCurrentPlayer_mem s p hp, hv]
    omega

set_option maxHeartbeats 16000000 in
set_option maxRecDepth 100000 in
/-- C5 witness: the settle-side decrement and the full-cycle double decrement
at the concrete initial state with a clicked value of 2. -/
theorem c5_witness :
    (∃ sNext, reduceDiceRollDone c5s = some sNext ∧
       ∃ q, getCurrentPlayer sNext = some q ∧ q.movesLeft = c5p.movesLeft - 1) ∧
    (∃ sNext, (reduceDiceClick 2 c5s).bind reduceDiceRollDone = some sNext ∧
       ∃ q, getCurrentPlayer sNext = some q ∧ q.movesLeft = c5p.movesLeft - 2) :=
  c5_theorem 2 c5s c5p (by decide) (by decide) (by decide) rfl (by decide)

/-! ## C8 — coin-slide boundary behavior -/

/-- Helper for the easing-guard boundary: the error branch is taken exactly
outside [0, 1]. -/
lemma easeGuard (msg1 msg2 : String) (x t : ℚ) :
    isErr (if t > 1 then Except.error msg1
      else if t < 0 then Except.error msg2
      else Except.ok x) = true ↔ t < 0 ∨ 1 < t := by
  split_ifs with h1 h2
  · simp only [isErr, true_iff]
    exact Or.inr h1
  · simp only [isErr, true_iff]
    exact Or.inl h2
  · simp only [isErr]
    constructor
    · intro hc
      exact absurd hc (by simp)
    · rintro (h | h)
      · exact absurd h h2
      · exact absurd h h1

/-- C8 counterexample: the claim that every tick with elapsed time at least
the duration renders exactly the end vertex, fires onComplete and clears the
slot is false: at elapsed 2 with duration 1 the code fires onComplete and
clears the slot but renders nothing at all on that tick. -/
theorem c8_counterexample :
    ¬ (∀ t0 now d : ℚ, ∀ s e : Vertex, truthyQ (some t0) = true → 0 < d →
        d ≤ now - t0 →
        animateCoins (some t0) now [s, e] d =
          Except.ok { slot := none, rendered := some e, completed := true }) := by
  intro h
  have h1 := h 1 3 1 { x := 0, y := 0 } { x := 2, y := 0 } (by norm_num [truthyQ]) (by norm_num)
    (by norm_num)
  have h2 : animateCoins (some 1) 3 [{ x := 0, y := 0 }, { x := 2, y := 0 }] 1 =
      Except.ok { slot := none, rendered := none, completed := true } := by
    norm_num [animateCoins, truthyQ]
  rw [h1] at h2
  simp at h2

/-- C8 (amended): for an armed coin slide over the path [start, end] — with a
truthy start timestamp and a positive duration — (i) a tick whose elapsed
time strictly exceeds the duration fires onAnimationComplete, clears the
slot, and draws nothing; (ii) the tick at elapsed exactly equal to the
duration draws exactly the end vertex (and does not fire); (iii) a tick at
elapsed 0 draws exactly the start vertex; and (iv) with an empty slot no tick
ever fires — it only re-arms the slot (one completion per run). -/
theorem c8_theorem (t0 now d : ℚ) (s e : Vertex) (h0 : t0 ≠ 0) (hd : 0 < d) :
    (d < now - t0 →
      animateCoins (some t0) now [s, e] d =
        Except.ok { slot := none, rendered := none, completed := true }) ∧
    (now - t0 = d →
      animateCoins (some t0) now [s, e] d =
        Except.ok { slot := some t0, rendered := some e, completed := false }) ∧
    (now - t0 = 0 →
      animateCoins (some t0) now [s, e] d =
        Except.ok { slot := some t0, rendered := some s, completed := false }) ∧
    (∀ path : List Vertex, ∀ tick : ℚ,
      animateCoins none tick path d =
        Except.ok { slot := if path.length < 2 then none else some tick,
                    rendered := none, completed := false }) := by
  have htr : truthyQ (some t0) = true := by simp [truthyQ, h0]
  refine ⟨?_, ?_, ?_, ?_⟩
  · intro hgt
    simp [animateCoins, htr, hgt]
  · intro heq
    have h1 : easeInOut ((now - t0) / d) = Except.ok 1 := by
      rw [heq, div_self (ne_of_gt hd)]
      norm_num [easeInOut]
    have hnot : ¬ (now - t0 > d) := by
      rw [heq]
      exact lt_irrefl d
    simp [animateCoins, htr, hnot, h1]
  · intro hz
    have h1 : easeInOut ((now - t0) / d) = Except.ok 0 := by
      rw [hz, zero_div]
      norm_num [easeInOut]
    have hnot : ¬ (now - t0 > d) := by
      rw [hz]
      exact not_lt.mpr hd.le
    simp [animateCoins, htr, hnot, h1]
  · intro path tick
    by_cases hl : path.length < 2
    · simp [animateCoins, hl]
    · simp [animateCoins, hl, truthyQ]

/-- C8 witness: the amended tick behavior at concrete inputs — at elapsed
exactly the duration the end vertex is drawn without firing, and at elapsed
beyond the duration onAnimationComplete fires with nothing drawn. -/
theorem c8_witness :
    animateCoins (some 1) 2 [{ x := 0, y := 0 }, { x := 4, y := 2 }] 1 =
      Except.ok { slot := some 1, rendered := some { x := 4, y := 2 }, completed := false } ∧
    animateCoins (some 1) 3 [{ x := 0, y := 0 }, { x := 4, y := 2 }] 1 =
      Except.ok { slot := none, rendered := none, completed := true } :=
  ⟨(c8_theorem 1 2 1 { x := 0, y := 0 } { x := 4, y := 2 } (by norm_num) (by norm_num)).2.1
      (by norm_num),
   (c8_theorem 1 3 1 { x := 0, y := 0 } { x := 4, y := 2 } (by norm_num) (by norm_num)).1
      (by norm_num)⟩

/-! ## C9 — dice-roll completion frame -/

/-- C9 counterexample: on the completion tick the face that is rendered is
the previously retained flicker face (here 2), not the settled value (here
5); only the retained slot is snapped to the settled value. -/
theorem c9_counterexample :
    animateDiceFace { animationStartTime := some 1, lastDiceValue := some 2 }
        { value := 5, rolling := true } 10 2 0 4 =
      Except.ok { globals := { animationStartTime := some 0, lastDiceValue := some 5 },
                  renderedFace := 2, rollDoneFired := true } ∧
    (2 : Nat) ≠ 5 := ⟨by norm_num [animateDiceFace, truthyQ, jsOrNat], by decide⟩

/-- C9 (amended): on the completion tick (armed slot, elapsed beyond the
duration) onRollDone fires and the retained face slot is snapped to the
settled diceState.value, but the face rendered on that same tick is the
stale flicker face `window.lastDiceValue || diceState.value`; the settled
value itself is rendered on every following non-rolling tick. -/
theorem c9_theorem (g : DiceGlobals) (ds : DiceState) (now d ticket : ℚ) (rf : Nat)
    (hroll : ds.rolling = true)
    (harmed : truthyQ g.animationStartTime = true)
    (hdone : now - g.animationStartTime.getD 0 > d) :
    animateDiceFace g ds now d ticket rf =
      Except.ok { globals := { animationStartTime := some 0, lastDiceValue := some ds.value },
                  renderedFace := jsOrNat g.lastDiceValue ds.value,
                  rollDoneFired := true } ∧
    (∀ g2 : DiceGlobals, ∀ now2 d2 t2 : ℚ, ∀ rf2 : Nat,
      animateDiceFace g2 { value := ds.value, rolling := false } now2 d2 t2 rf2 =
        Except.ok { globals := g2, renderedFace := ds.value, rollDoneFired := false }) := by
  constructor
  · simp [animateDiceFace, hroll, harmed, hdone]
  · intro g2 now2 d2 t2 rf2
    simp [animateDiceFace]

/-- C9 witness: the amended completion behavior at a concrete input (flicker
face 3, settled value 6), plus the following non-rolling render of 6. -/
theorem c9_witness :
    animateDiceFace { animationStartTime := some 1, lastDiceValue := some 3 }
        { value := 6, rolling := true } 10 2 0 4 =
      Except.ok { globals := { animationStartTime := some 0, lastDiceValue := some 6 },
                  renderedFace := jsOrNat (some 3) 6, rollDoneFired := true } ∧
    animateDiceFace { animationStartTime := some 0, lastDiceValue := some 6 }
        { value := 6, rolling := false } 11 2 0 4 =
      Except.ok { globals := { animationStartTime := some 0, lastDiceValue := some 6 },
                  renderedFace := 6, rollDoneFired := false } := by
  have h := c9_theorem { animationStartTime := some 1, lastDiceValue := some 3 }
    { value := 6, rolling := true } 10 2 0 4 rfl (by norm_num [truthyQ]) (by norm_num)
  exact ⟨h.1, h.2 { animationStartTime := some 0, lastDiceValue := some 6 } 11 2 0 4⟩

/-! ## C10 — easing function contracts -/

/-- C10: each easing function takes its thrown-error branch exactly when the
input lies outside [0, 1] (never clamping silently); on [0, 1] easeIn is t^2
and easeOut is 1 - (1 - t)^2; easeInOut fixes 0, 1/2, and 1; and all three
error at -0.01 and 1.01. -/
theorem c10_theorem (t : ℚ) :
    (isErr (easeIn t) = true ↔ t < 0 ∨ 1 < t) ∧
    (isErr (easeOut t) = true ↔ t < 0 ∨ 1 < t) ∧
    (isErr (easeInOut t) = true ↔ t < 0 ∨ 1 < t) ∧
    (0 ≤ t → t ≤ 1 → easeIn t = Except.ok (t ^ 2)) ∧
    (0 ≤ t → t ≤ 1 → easeOut t = Except.ok (1 - (1 - t) ^ 2)) ∧
    easeInOut 0 = Except.ok 0 ∧
    easeInOut (1 / 2) = Except.ok (1 / 2) ∧
    easeInOut 1 = Except.ok 1 ∧
    isErr (easeIn (-(1 / 100))) = true ∧ isErr (easeOut (-(1 / 100))) = true ∧
    isErr (easeInOut (-(1 / 100))) = true ∧ isErr (easeIn (101 / 100)) = true ∧
    isErr (easeOut (101 / 100)) = true ∧ isErr (easeInOut (101 / 100)) = true := by
  refine ⟨easeGuard _ _ _ t, easeGuard _ _ _ t, easeGuard _ _ _ t, ?_, ?_,
    by norm_num [easeInOut], by norm_num [easeInOut], by norm_num [easeInOut],
    by norm_num [easeIn, isErr], by norm_num [easeOut, isErr], by norm_num [easeInOut, isErr],
    by norm_num [easeIn, isErr], by norm_num [easeOut, isErr], by norm_num [easeInOut, isErr]⟩
  · intro ha hb
    unfold easeIn
    rw [if_neg (not_lt.mpr hb), if_neg (not_lt.mpr ha)]
  · intro ha hb
    unfold easeOut
    rw [if_neg (not_lt.mpr hb), if_neg (not_lt.mpr ha)]

/-- C10 witness: the error-branch characterization and the closed forms of
easeIn and easeOut at the in-range input 1/2. -/
theorem c10_witness :
    (isErr (easeIn (1 / 2 : ℚ)) = true ↔ (1 / 2 : ℚ) < 0 ∨ 1 < (1 / 2 : ℚ)) ∧
    easeIn (1 / 2 : ℚ) = Except.ok ((1 / 2) ^ 2) ∧
    easeOut (1 / 2 : ℚ) = Except.ok (1 - (1 - 1 / 2) ^ 2) :=
  ⟨(c10_theorem (1 / 2)).1,
   (c10_theorem (1 / 2)).2.2.2.1 (by norm_num) (by norm_num),
   (c10_theorem (1 / 2)).2.2.2.2.1 (by norm_num) (by norm_num)⟩

end Ludo
